import Mathlib

/-!
Shallow embedding of the three CRUD services of this repository:

* `Mongo`  — the todo API of `src/MongoDB/routes/route.py` over a document
  collection, modelled as a list of documents in natural (insertion) order;
  `find_one` / `update_one` / `delete_one` act on the first matching
  document, matching the backing store, whose `_id` carries a unique index.
* `Sql`    — the book API of `src/SQL/main.py` over a relational table,
  modelled as a list of rows.
* `Mem`    — the in-memory book API of `src/basics.py` over a process-wide
  Python list.

Timestamps (`datetime.utcnow()`) are modelled as natural numbers supplied
as explicit parameters; each call site of the Python code corresponds to
one parameter.  An HTTP error raised by a handler is an `Err` value; a
successful response is the route decorator's status code paired with the
serialized body.  Handlers that mutate the store also return the new store.
-/

/-- An HTTP error as raised by `HTTPException(status_code, detail)`. -/
structure Err where
  status : Nat
  detail : String
deriving DecidableEq, Repr

/-- A JSON value, for handlers that return a raw dict rather than a
response model (`delete_completed_todos`, `delete_all_books`). -/
inductive JVal where
  | str (s : String)
  | num (n : Nat)
deriving DecidableEq, Repr

namespace Mongo

/-- A stored todo document of the MongoDB collection.  `oid` is the
hex-string form of the `_id` assigned at insertion. -/
structure TodoDoc where
  oid : String
  name : String
  description : String
  complete : Bool
  created_at : Nat
  updated_at : Nat
deriving DecidableEq, Repr

/-- The `TodoCreate` request model of `src/MongoDB/models/todos.py`
(the `complete` default `False` is filled in by validation). -/
structure TodoCreate where
  name : String
  description : String
  complete : Bool
deriving DecidableEq, Repr

/-- The `TodoUpdate` request model: every field optional.  In
`model_dump()` an omitted field and an explicit `null` both appear as
`None`, so both are modelled by `none`. -/
structure TodoUpdate where
  name : Option String
  description : Option String
  complete : Option Bool
deriving DecidableEq, Repr

/-- The serialized response shape produced by `individual_serial`
(`src/MongoDB/schema/schemas.py`). -/
structure TodoResponse where
  id : String
  name : String
  description : String
  complete : Bool
  created_at : Nat
  updated_at : Nat
deriving DecidableEq, Repr

/-- `individual_serial`: serialize one stored document, exposing the
`_id` as the string field `id` and copying the remaining fields. -/
def individual_serial (d : TodoDoc) : TodoResponse :=
  { id := d.oid
    name := d.name
    description := d.description
    complete := d.complete
    created_at := d.created_at
    updated_at := d.updated_at }

/-- A hex digit, as accepted by `bytes.fromhex` inside `bson.ObjectId`. -/
def isHexChar (c : Char) : Bool :=
  c.isDigit || ('a' ≤ c && c ≤ 'f') || ('A' ≤ c && c ≤ 'F')

/-- `validate_object_id` succeeds exactly on well-formed ObjectId strings:
24 hexadecimal characters (`bson.ObjectId` raises `InvalidId` otherwise,
which the helper maps to a 400 error). -/
def isValidObjectId (s : String) : Bool :=
  s.length == 24 && s.data.all isHexChar

/-- The 400 error raised by `validate_object_id` on a malformed id. -/
def invalidIdErr (id : String) : Err :=
  ⟨400, "Invalid ID format: " ++ id⟩

/-- The 404 error raised when no todo carries the requested id. -/
def notFoundErr (id : String) : Err :=
  ⟨404, "Todo with ID " ++ id ++ " not found"⟩

/-- `collection.find_one` on an `_id` filter: first matching document. -/
def find_one (db : List TodoDoc) (oid : String) : Option TodoDoc :=
  db.find? (fun d => d.oid == oid)

/-- The argument of a `$set` update: the fields to overwrite. -/
structure TodoSet where
  name : Option String
  description : Option String
  complete : Option Bool
  updated_at : Option Nat
deriving DecidableEq, Repr

/-- Apply a `$set` document to one stored document. -/
def applySet (d : TodoDoc) (s : TodoSet) : TodoDoc :=
  { oid := d.oid
    name := s.name.getD d.name
    description := s.description.getD d.description
    complete := s.complete.getD d.complete
    created_at := d.created_at
    updated_at := s.updated_at.getD d.updated_at }

/-- `collection.update_one` on an `_id` filter with a `$set` document:
rewrites the first matching document. -/
def update_one (db : List TodoDoc) (oid : String) (s : TodoSet) : List TodoDoc :=
  match db with
  | [] => []
  | d :: rest => if d.oid == oid then applySet d s :: rest else d :: update_one rest oid s

/-- `collection.delete_one` on an `_id` filter: removes the first match. -/
def delete_one (db : List TodoDoc) (oid : String) : List TodoDoc :=
  db.eraseP (fun d => d.oid == oid)

/-- `GET /todos/{id}`: validate the id, fetch, 404 when absent,
serialize.  Success status 200. -/
def get_todo (db : List TodoDoc) (id : String) : Except Err (Nat × TodoResponse) :=
  if isValidObjectId id then
    match find_one db id with
    | none => .error (notFoundErr id)
    | some t => .ok (200, individual_serial t)
  else .error (invalidIdErr id)

/-- `POST /todos/`: insert the payload with both timestamps set to
`utcnow()` (two separate calls, `t1` then `t2`), re-fetch by the inserted
id and serialize.  `oid` is the ObjectId the store assigns; it is fresh
in any reachable state.  Success status 201. -/
def create_todo (db : List TodoDoc) (todo : TodoCreate) (oid : String) (t1 t2 : Nat) :
    (Except Err (Nat × TodoResponse)) × List TodoDoc :=
  let doc : TodoDoc :=
    { oid := oid, name := todo.name, description := todo.description
      complete := todo.complete, created_at := t1, updated_at := t2 }
  let db2 := db ++ [doc]
  match find_one db2 oid with
  | none => (.error ⟨500, "internal"⟩, db2)
  | some created => (.ok (201, individual_serial created), db2)

/-- `update_data` of `update_todo` is empty: every payload field is
`None`, so the comprehension keeps no key. -/
def noFields (todo : TodoUpdate) : Bool :=
  todo.name.isNone && todo.description.isNone && todo.complete.isNone

/-- `PUT /todos/{id}`: validate the id, 404 when absent, drop `None`
payload fields, 400 when nothing remains, `$set` the remaining fields
plus a refreshed `updated_at`, re-fetch and serialize.  Success 200. -/
def update_todo (db : List TodoDoc) (id : String) (todo : TodoUpdate) (now : Nat) :
    (Except Err (Nat × TodoResponse)) × List TodoDoc :=
  if isValidObjectId id then
    match find_one db id with
    | none => (.error (notFoundErr id), db)
    | some _ =>
      if noFields todo then
        (.error ⟨400, "No valid fields to update"⟩, db)
      else
        let db2 := update_one db id ⟨todo.name, todo.description, todo.complete, some now⟩
        match find_one db2 id with
        | none => (.error ⟨500, "internal"⟩, db2)
        | some updated => (.ok (200, individual_serial updated), db2)
  else (.error (invalidIdErr id), db)

/-- `PATCH /todos/{id}/toggle`: validate the id, 404 when absent, `$set`
the negated `complete` and a refreshed `updated_at`, re-fetch and
serialize.  Success status 200. -/
def toggle_todo (db : List TodoDoc) (id : String) (now : Nat) :
    (Except Err (Nat × TodoResponse)) × List TodoDoc :=
  if isValidObjectId id then
    match find_one db id with
    | none => (.error (notFoundErr id), db)
    | some t =>
      let db2 := update_one db id ⟨none, none, some (!t.complete), some now⟩
      match find_one db2 id with
      | none => (.error ⟨500, "internal"⟩, db2)
      | some updated => (.ok (200, individual_serial updated), db2)
  else (.error (invalidIdErr id), db)

/-- `DELETE /todos/{id}`: validate the id, `delete_one`, 404 when the
deleted count is zero.  Success status 204 with empty body. -/
def delete_todo (db : List TodoDoc) (id : String) :
    (Except Err Nat) × List TodoDoc :=
  if isValidObjectId id then
    let db2 := delete_one db id
    if db.length - db2.length == 0 then (.error (notFoundErr id), db2)
    else (.ok 204, db2)
  else (.error (invalidIdErr id), db)

/-- `DELETE /todos/completed/all`: `delete_many` on `complete = True`,
always status 200, body a message embedding the deleted count. -/
def delete_completed_todos (db : List TodoDoc) :
    (Nat × List (String × JVal)) × List TodoDoc :=
  let removed := (db.filter (fun d => d.complete)).length
  ((200, [("message", JVal.str ("Deleted " ++ toString removed ++ " completed todos"))]),
    db.filter (fun d => !d.complete))

/-- Round half to even, on exact rationals (the tie rule of Python
`round`). -/
def roundHalfEven (q : ℚ) : ℤ :=
  if q - (⌊q⌋ : ℚ) < 1/2 then ⌊q⌋
  else if 1/2 < q - (⌊q⌋ : ℚ) then ⌊q⌋ + 1
  else if ⌊q⌋ % 2 = 0 then ⌊q⌋ else ⌊q⌋ + 1

/-- Python `round(x, 2)` on an exact rational. -/
def round2 (q : ℚ) : ℚ :=
  (roundHalfEven (q * 100) : ℚ) / 100

/-- The body returned by `GET /todos/stats/summary`. -/
structure TodoStats where
  total : Nat
  completed : Nat
  pending : Nat
  completion_rate : ℚ
deriving DecidableEq, Repr

/-- `GET /todos/stats/summary`: counts, their difference, and the rounded
completion percentage, `0` on an empty store. -/
def get_todo_stats (db : List TodoDoc) : TodoStats :=
  let total := db.length
  let completed := (db.filter (fun d => d.complete)).length
  { total := total
    completed := completed
    pending := total - completed
    completion_rate :=
      if total > 0 then round2 ((completed : ℚ) / (total : ℚ) * 100) else 0 }

end Mongo

namespace Sql

/-- A row of the `books` table (`src/SQL/models.py`): `description` is
nullable, every other column is not. -/
structure Book where
  id : Int
  title : String
  author : String
  description : Option String
  rating : Int
deriving DecidableEq, Repr

/-- The `BookUpdate` schema under `model_dump(exclude_unset=True)`: a
field is `some v` exactly when the client supplied it. -/
structure BookUpdate where
  title : Option String
  author : Option String
  description : Option String
  rating : Option Int
deriving DecidableEq, Repr

/-- The `setattr` loop of `update_book`: overwrite exactly the supplied
fields. -/
def applyUpdate (b : Book) (u : BookUpdate) : Book :=
  { id := b.id
    title := u.title.getD b.title
    author := u.author.getD b.author
    description := match u.description with | some s => some s | none => b.description
    rating := u.rating.getD b.rating }

/-- Commit of an ORM row mutation: rewrite the row carrying the primary
key (first match; the primary key is unique). -/
def setFirst (db : List Book) (book_id : Int) (b2 : Book) : List Book :=
  match db with
  | [] => []
  | b :: rest => if b.id == book_id then b2 :: rest else b :: setFirst rest book_id b2

/-- The 404 error of the book endpoints. -/
def bookNotFound (book_id : Int) : Err :=
  ⟨404, "Book with ID " ++ toString book_id ++ " not found"⟩

/-- `PUT /books/{book_id}`: 404 when the row is absent, otherwise
overwrite the supplied fields, commit, and return the refreshed row.
Success status 200; an empty payload commits no change. -/
def update_book (db : List Book) (book_id : Int) (payload : BookUpdate) :
    (Except Err (Nat × Book)) × List Book :=
  match db.find? (fun b => b.id == book_id) with
  | none => (.error (bookNotFound book_id), db)
  | some book =>
    let updated := applyUpdate book payload
    (.ok (200, updated), setFirst db book_id updated)

/-- SQL `LIKE` pattern matching over characters: `%` matches any
sequence, `_` matches any one character, anything else matches itself.
The `fuel` argument only forces structural recursion; every call of
`likeMatch` supplies enough fuel (pattern length plus subject length
strictly decreases at each recursive call) so the zero-fuel branch is
never reached. -/
def likeMatchAux : Nat → List Char → List Char → Bool
  | 0, _, _ => false
  | fuel + 1, p, s =>
    match p, s with
    | [], [] => true
    | [], _ :: _ => false
    | '%' :: ps, [] => likeMatchAux fuel ps []
    | '%' :: ps, c :: cs => likeMatchAux fuel ps (c :: cs) || likeMatchAux fuel ('%' :: ps) cs
    | '_' :: _, [] => false
    | '_' :: ps, _ :: cs => likeMatchAux fuel ps cs
    | _ :: _, [] => false
    | p1 :: ps, c :: cs => p1 == c && likeMatchAux fuel ps cs

/-- SQL `LIKE` over a pattern and a subject. -/
def likeMatch (p s : List Char) : Bool :=
  likeMatchAux (p.length + s.length + 1) p s

/-- `column.ilike(f"%{pat}%")`: case-insensitive `LIKE` against the
pattern `pat` wrapped in `%`, with no escaping of `%` or `_` in `pat`
(lowercasing character-wise, as `str.lower` does). -/
def ilikeContains (pat s : String) : Bool :=
  likeMatch (("%" ++ pat ++ "%").data.map Char.toLower) (s.data.map Char.toLower)

/-- Python truthiness of an optional string (`if title:`): present and
non-empty. -/
def truthy (o : Option String) : Bool :=
  match o with
  | none => false
  | some s => !(s == "")

/-- `GET /books/search/`: chain a filter per truthy/present parameter. -/
def search_books (title author : Option String) (min_rating : Option Int)
    (db : List Book) : List Book :=
  let q1 := if truthy title then db.filter (fun b => ilikeContains (title.getD "") b.title) else db
  let q2 := if truthy author then q1.filter (fun b => ilikeContains (author.getD "") b.author) else q1
  match min_rating with
  | some r => q2.filter (fun b => decide (r ≤ b.rating))
  | none => q2

/-- `DELETE /books`: count, delete every row, report the count in a
message.  Always status 200. -/
def delete_all_books (db : List Book) :
    (Nat × List (String × JVal)) × List Book :=
  ((200, [("message", JVal.str ("Successfully deleted " ++ toString db.length ++ " book(s)"))]),
    [])

end Sql

namespace Mem

/-- A book of the in-memory variant (`src/basics.py`); the UUID identity
is modelled as a natural number. -/
structure Book where
  id : Nat
  title : String
  author : String
  description : String
  rating : Int
deriving DecidableEq, Repr

/-- The `BookUpdate` model under `model_dump(exclude_unset=True)`. -/
structure BookUpdate where
  title : Option String
  author : Option String
  description : Option String
  rating : Option Int
deriving DecidableEq, Repr

/-- `find_book_by_id`: index and value of the first book carrying the
id, scanning in list order. -/
def find_book_by_id (books : List Book) (book_id : Nat) : Option (Nat × Book) :=
  match books with
  | [] => none
  | b :: rest =>
    if b.id == book_id then some (0, b)
    else (find_book_by_id rest book_id).map (fun p => (p.1 + 1, p.2))

/-- `existing_book.model_copy(update=update_data)`: overwrite exactly
the supplied fields. -/
def model_copy (b : Book) (u : BookUpdate) : Book :=
  { id := b.id
    title := u.title.getD b.title
    author := u.author.getD b.author
    description := u.description.getD b.description
    rating := u.rating.getD b.rating }

/-- The 404 error of the in-memory book endpoints. -/
def bookNotFound (book_id : Nat) : Err :=
  ⟨404, "Book with ID " ++ toString book_id ++ " not found"⟩

/-- `PUT /books/{book_id}` of the in-memory variant: 404 when absent,
otherwise build the merged copy, store it at the found index, return it.
Success status 200. -/
def update_book (books : List Book) (book_id : Nat) (u : BookUpdate) :
    (Except Err (Nat × Book)) × List Book :=
  match find_book_by_id books book_id with
  | none => (.error (bookNotFound book_id), books)
  | some (index, existing) =>
    let updated := model_copy existing u
    (.ok (200, updated), books.set index updated)

/-- `DELETE /books/{book_id}` of the in-memory variant: 404 when absent,
otherwise pop the found index.  Success status 200, the body a message
naming the deleted book's id and title (here: the book itself). -/
def delete_book (books : List Book) (book_id : Nat) :
    (Except Err (Nat × Book)) × List Book :=
  match find_book_by_id books book_id with
  | none => (.error (bookNotFound book_id), books)
  | some (index, deleted) => (.ok (200, deleted), books.eraseIdx index)

end Mem

/-- A mutating operation of the todo API surface, for reasoning about
sequences of requests: a create (with the payload and the fresh ObjectId
the store assigns), a partial update, or a toggle. -/
inductive Mongo.Op where
  | create (c : Mongo.TodoCreate) (oid : String)
  | update (id : String) (u : Mongo.TodoUpdate)
  | toggle (id : String)
deriving DecidableEq, Repr

/-- Effect of one operation on the store; `t` is the value of
`datetime.utcnow()` while the request runs (the two calls inside the
create handler are both modelled by `t`). -/
def Mongo.applyOp (db : List Mongo.TodoDoc) (op : Mongo.Op) (t : Nat) :
    List Mongo.TodoDoc :=
  match op with
  | .create c oid => (Mongo.create_todo db c oid t t).2
  | .update id u => (Mongo.update_todo db id u t).2
  | .toggle id => (Mongo.toggle_todo db id t).2

/-- Run a sequence of timestamped operations against a store. -/
def Mongo.run (db : List Mongo.TodoDoc) : List (Mongo.Op × Nat) → List Mongo.TodoDoc
  | [] => db
  | (op, t) :: rest => Mongo.run (Mongo.applyOp db op t) rest

/-- Every stored document satisfies `created_at ≤ updated_at` and was
last touched no later than `t`. -/
def Mongo.Bounded (db : List Mongo.TodoDoc) (t : Nat) : Prop :=
  ∀ d ∈ db, d.created_at ≤ d.updated_at ∧ d.updated_at ≤ t

/-- The clock readings along a trace never decrease, starting from `t0`
(real time is monotone). -/
def Mongo.Mono : Nat → List (Mongo.Op × Nat) → Prop
  | _, [] => True
  | t0, (_, t) :: rest => t0 ≤ t ∧ Mongo.Mono t rest

/-- Modelled from the spec's words ("case-insensitive substring match on
title/author"): plain contiguous-substring containment after lowercasing,
with no wildcard interpretation.  Used only to compare the spec's reading
of the search predicate against the implementation's `ilike` call. -/
def specSubstringInsensitive (pat s : String) : Bool :=
  decide ((pat.data.map Char.toLower) <:+: (s.data.map Char.toLower))

deriving instance DecidableEq for Except

/-! Helper lemmas about the embedded operations. -/

theorem Mongo.applySet_oid (d : Mongo.TodoDoc) (s : Mongo.TodoSet) :
    (Mongo.applySet d s).oid = d.oid := rfl

theorem Mongo.find_one_update_one (db : List Mongo.TodoDoc) (oid : String) (s : Mongo.TodoSet) :
    Mongo.find_one (Mongo.update_one db oid s) oid
      = (Mongo.find_one db oid).map (fun d => Mongo.applySet d s) := by
  induction db with
  | nil => rfl
  | cons d rest ih =>
    by_cases h : (d.oid == oid) = true
    · have h2 : ((Mongo.applySet d s).oid == oid) = true := by
        rw [Mongo.applySet_oid]; exact h
      rw [Mongo.update_one, if_pos h, Mongo.find_one, Mongo.find_one]
      simp [List.find?_cons, h, h2]
    · have h0 : (d.oid == oid) = false := by simpa using h
      rw [Mongo.update_one, if_neg h, Mongo.find_one, Mongo.find_one]
      simp only [List.find?_cons, h0]
      exact ih

theorem Mongo.update_one_keys (db : List Mongo.TodoDoc) (oid : String) (s : Mongo.TodoSet) :
    (Mongo.update_one db oid s).map (fun d => (d.oid, d.created_at))
      = db.map (fun d => (d.oid, d.created_at)) := by
  induction db with
  | nil => rfl
  | cons d rest ih =>
    by_cases h : (d.oid == oid) = true
    · rw [Mongo.update_one, if_pos h]; rfl
    · rw [Mongo.update_one, if_neg h]
      simpa using ih

theorem Mongo.mem_update_one {P : Mongo.TodoDoc → Prop}
    (db : List Mongo.TodoDoc) (oid : String) (s : Mongo.TodoSet)
    (h0 : ∀ d ∈ db, P d) (h1 : ∀ d, P d → P (Mongo.applySet d s)) :
    ∀ x ∈ Mongo.update_one db oid s, P x := by
  induction db with
  | nil => intro x hx; cases hx
  | cons d rest ih =>
    intro x hx
    by_cases h : (d.oid == oid) = true
    · rw [Mongo.update_one, if_pos h] at hx
      rcases List.mem_cons.mp hx with hx1 | hx1
      · rw [hx1]; exact h1 d (h0 d (List.mem_cons_self d rest))
      · exact h0 x (List.mem_cons_of_mem d hx1)
    · rw [Mongo.update_one, if_neg h] at hx
      rcases List.mem_cons.mp hx with hx1 | hx1
      · rw [hx1]; exact h0 d (List.mem_cons_self d rest)
      · exact ih (fun y hy => h0 y (List.mem_cons_of_mem d hy)) x hx1

theorem Sql.setFirst_self (db : List Sql.Book) (bid : Int) (book : Sql.Book)
    (h : db.find? (fun b => b.id == bid) = some book) :
    Sql.setFirst db bid book = db := by
  induction db with
  | nil => rfl
  | cons b rest ih =>
    by_cases hb : (b.id == bid) = true
    · simp only [List.find?_cons, hb] at h
      cases h
      rw [Sql.setFirst, if_pos hb]
    · have hb0 : (b.id == bid) = false := by simpa using hb
      simp only [List.find?_cons, hb0] at h
      rw [Sql.setFirst, if_neg hb, ih h]

theorem Sql.find?_setFirst (db : List Sql.Book) (bid : Int) (book b2 : Sql.Book)
    (h : db.find? (fun b => b.id == bid) = some book) (hid : b2.id = book.id) :
    (Sql.setFirst db bid b2).find? (fun b => b.id == bid) = some b2 := by
  induction db with
  | nil => cases h
  | cons b rest ih =>
    by_cases hb : (b.id == bid) = true
    · simp only [List.find?_cons, hb] at h
      cases h
      have h2 : (b2.id == bid) = true := by rw [hid]; exact hb
      rw [Sql.setFirst, if_pos hb]
      simp only [List.find?_cons, h2]
    · have hb0 : (b.id == bid) = false := by simpa using hb
      simp only [List.find?_cons, hb0] at h
      rw [Sql.setFirst, if_neg hb]
      simp only [List.find?_cons, hb0]
      exact ih h

theorem Mem.find_book_by_id_set (books : List Mem.Book) (bid : Nat) (i : Nat)
    (b b2 : Mem.Book) (h : Mem.find_book_by_id books bid = some (i, b))
    (hid : b2.id = b.id) :
    Mem.find_book_by_id (books.set i b2) bid = some (i, b2) := by
  induction books generalizing i with
  | nil => cases h
  | cons c rest ih =>
    by_cases hc : (c.id == bid) = true
    · rw [Mem.find_book_by_id, if_pos hc] at h
      cases h
      have h2 : (b2.id == bid) = true := by rw [hid]; exact hc
      rw [List.set_cons_zero, Mem.find_book_by_id, if_pos h2]
    · rw [Mem.find_book_by_id, if_neg hc] at h
      match hr : Mem.find_book_by_id rest bid with
      | none => rw [hr] at h; cases h
      | some (j, b') =>
        rw [hr] at h
        simp only [Option.map_some'] at h
        cases h
        rw [List.set_cons_succ, Mem.find_book_by_id, if_neg hc, ih j hr]
        rfl

theorem countP_le_one_of_nodup_map {α β : Type} [DecidableEq β] (f : α → β)
    (l : List α) (hn : (l.map f).Nodup) (k : β) :
    l.countP (fun x => f x == k) ≤ 1 := by
  have h := List.nodup_iff_count_le_one.mp hn k
  rw [List.count_eq_countP, List.countP_map] at h
  simpa [Function.comp] using h

theorem eraseP_no_match {α : Type} (p : α → Bool) (l : List α)
    (h : l.countP p ≤ 1) : ∀ x ∈ l.eraseP p, p x = false := by
  induction l with
  | nil => simp
  | cons a rest ih =>
    by_cases ha : p a = true
    · rw [List.eraseP_cons_of_pos ha]
      have h0 : rest.countP p = 0 := by
        rw [List.countP_cons_of_pos p rest ha] at h
        omega
      intro x hx
      have := List.countP_eq_zero.mp h0 x hx
      simpa using this
    · rw [List.eraseP_cons_of_neg ha]
      intro x hx
      rcases List.mem_cons.mp hx with h1 | h1
      · rw [h1]
        simpa using ha
      · rw [List.countP_cons_of_neg p rest ha] at h
        exact ih h x h1

theorem Mem.find_book_by_id_none (books : List Mem.Book) (bid : Nat)
    (h : ∀ b ∈ books, (b.id == bid) = false) :
    Mem.find_book_by_id books bid = none := by
  induction books with
  | nil => rfl
  | cons b rest ih =>
    have hb := h b (List.mem_cons_self b rest)
    rw [Mem.find_book_by_id, if_neg (by simp [hb]),
      ih (fun x hx => h x (List.mem_cons_of_mem b hx))]
    rfl

theorem Mem.eraseIdx_of_found (books : List Mem.Book) (bid : Nat) (i : Nat) (b : Mem.Book)
    (h : Mem.find_book_by_id books bid = some (i, b)) :
    books.eraseIdx i = books.eraseP (fun x => x.id == bid) := by
  induction books generalizing i with
  | nil => cases h
  | cons c rest ih =>
    by_cases hc : (c.id == bid) = true
    · rw [Mem.find_book_by_id, if_pos hc] at h
      cases h
      rw [List.eraseIdx_cons_zero,
        List.eraseP_cons_of_pos (p := fun x : Book => x.id == bid) hc]
    · rw [Mem.find_book_by_id, if_neg hc] at h
      match hr : Mem.find_book_by_id rest bid with
      | none => rw [hr] at h; cases h
      | some (j, b') =>
        rw [hr] at h
        simp only [Option.map_some'] at h
        cases h
        rw [List.eraseIdx_cons_succ,
          List.eraseP_cons_of_neg (p := fun x : Book => x.id == bid) hc, ih j hr]

theorem Mongo.toggle_todo_found (db : List Mongo.TodoDoc) (id : String)
    (t : Mongo.TodoDoc) (now : Nat)
    (hv : Mongo.isValidObjectId id = true) (hf : Mongo.find_one db id = some t) :
    Mongo.toggle_todo db id now
      = (.ok (200, Mongo.individual_serial
            (Mongo.applySet t ⟨none, none, some (!t.complete), some now⟩)),
          Mongo.update_one db id ⟨none, none, some (!t.complete), some now⟩) := by
  have hfu := Mongo.find_one_update_one db id ⟨none, none, some (!t.complete), some now⟩
  rw [hf] at hfu
  simp only [Option.map_some'] at hfu
  rw [Mongo.toggle_todo, if_pos hv, hf]
  simp only [hfu]

theorem Sql.likeMatchAux_percent (fuel : Nat) :
    ∀ (s : List Char), s.length + 2 ≤ fuel → Sql.likeMatchAux fuel ['%'] s = true := by
  induction fuel with
  | zero => intro s h; omega
  | succ f ih =>
    intro s h
    match s with
    | [] =>
      obtain ⟨g, rfl⟩ : ∃ g, f = g + 1 := ⟨f - 1, by omega⟩
      rfl
    | c :: cs =>
      have h1 : cs.length + 2 ≤ f := by
        simp only [List.length_cons] at h
        omega
      show (Sql.likeMatchAux f [] (c :: cs) || Sql.likeMatchAux f ['%'] cs) = true
      rw [ih cs h1]
      simp

theorem Sql.likeMatchAux_two_percents (fuel : Nat) :
    ∀ (s : List Char), s.length + 3 ≤ fuel → Sql.likeMatchAux fuel ['%', '%'] s = true := by
  induction fuel with
  | zero => intro s h; omega
  | succ f ih =>
    intro s h
    match s with
    | [] =>
      show Sql.likeMatchAux f ['%'] [] = true
      exact Sql.likeMatchAux_percent f [] (by simpa using h)
    | c :: cs =>
      have h1 : cs.length + 3 ≤ f := by
        simp only [List.length_cons] at h
        omega
      show (Sql.likeMatchAux f ['%'] (c :: cs) || Sql.likeMatchAux f ['%', '%'] cs) = true
      rw [Sql.likeMatchAux_percent f (c :: cs) (by simp only [List.length_cons]; omega)]
      simp

theorem Sql.ilikeContains_empty (s : String) : Sql.ilikeContains "" s = true := by
  show Sql.likeMatch (("%" ++ "" ++ "%").data.map Char.toLower) (s.data.map Char.toLower) = true
  have he : ("%" ++ "" ++ "%").data.map Char.toLower = ['%', '%'] := rfl
  rw [he, Sql.likeMatch]
  exact Sql.likeMatchAux_two_percents _ _ (by simp; omega)

theorem Mongo.create_todo_store (db : List Mongo.TodoDoc) (c : Mongo.TodoCreate)
    (oid : String) (t1 t2 : Nat) :
    (Mongo.create_todo db c oid t1 t2).2
      = db ++ [⟨oid, c.name, c.description, c.complete, t1, t2⟩] := by
  simp only [Mongo.create_todo]
  split <;> rfl

theorem Mongo.update_todo_store_cases (db : List Mongo.TodoDoc) (id : String)
    (u : Mongo.TodoUpdate) (now : Nat) :
    (Mongo.update_todo db id u now).2 = db
    ∨ (Mongo.update_todo db id u now).2
        = Mongo.update_one db id ⟨u.name, u.description, u.complete, some now⟩ := by
  simp only [Mongo.update_todo]
  split
  · split
    · left; rfl
    · split
      · left; rfl
      · split
        · right; rfl
        · right; rfl
  · left; rfl

theorem Mongo.toggle_todo_store_cases (db : List Mongo.TodoDoc) (id : String) (now : Nat) :
    (Mongo.toggle_todo db id now).2 = db
    ∨ ∃ v, (Mongo.toggle_todo db id now).2
        = Mongo.update_one db id ⟨none, none, some v, some now⟩ := by
  simp only [Mongo.toggle_todo]
  split
  · split
    · left; rfl
    · rename_i t ht
      split
      · right; exact ⟨!t.complete, rfl⟩
      · right; exact ⟨!t.complete, rfl⟩
  · left; rfl

theorem Mongo.applyOp_bounded (db : List Mongo.TodoDoc) (op : Mongo.Op) (t t0 : Nat)
    (hb : Mongo.Bounded db t0) (ht : t0 ≤ t) :
    Mongo.Bounded (Mongo.applyOp db op t) t := by
  have hweak : Mongo.Bounded db t :=
    fun d hd => ⟨(hb d hd).1, le_trans (hb d hd).2 ht⟩
  match op with
  | .create c oid =>
    show Mongo.Bounded (Mongo.create_todo db c oid t t).2 t
    rw [Mongo.create_todo_store db c oid t t]
    intro d hd
    rcases List.mem_append.mp hd with h | h
    · exact hweak d h
    · have hd2 : d = ⟨oid, c.name, c.description, c.complete, t, t⟩ :=
        List.mem_singleton.mp h
      rw [hd2]
      exact ⟨le_refl t, le_refl t⟩
  | .update id u =>
    show Mongo.Bounded (Mongo.update_todo db id u t).2 t
    rcases Mongo.update_todo_store_cases db id u t with h | h
    · rw [h]; exact hweak
    · rw [h]
      exact Mongo.mem_update_one db id _ hweak
        (fun d hd => ⟨le_trans hd.1 hd.2, le_refl t⟩)
  | .toggle id =>
    show Mongo.Bounded (Mongo.toggle_todo db id t).2 t
    rcases Mongo.toggle_todo_store_cases db id t with h | ⟨v, h⟩
    · rw [h]; exact hweak
    · rw [h]
      exact Mongo.mem_update_one db id _ hweak
        (fun d hd => ⟨le_trans hd.1 hd.2, le_refl t⟩)

theorem Mongo.run_created_le_updated (ops : List (Mongo.Op × Nat)) :
    ∀ (db : List Mongo.TodoDoc) (t0 : Nat), Mongo.Bounded db t0 → Mongo.Mono t0 ops →
      ∀ d ∈ Mongo.run db ops, d.created_at ≤ d.updated_at := by
  induction ops with
  | nil =>
    intro db t0 hb _ d hd
    exact (hb d hd).1
  | cons p rest ih =>
    intro db t0 hb hm
    obtain ⟨op, t⟩ := p
    obtain ⟨h1, h2⟩ := hm
    exact ih (Mongo.applyOp db op t) t (Mongo.applyOp_bounded db op t t0 hb h1) h2

theorem Mongo.update_todo_keys (db : List Mongo.TodoDoc) (id : String)
    (u : Mongo.TodoUpdate) (now : Nat) :
    ((Mongo.update_todo db id u now).2).map (fun d => (d.oid, d.created_at))
      = db.map (fun d => (d.oid, d.created_at)) := by
  rcases Mongo.update_todo_store_cases db id u now with h | h
  · rw [h]
  · rw [h]
    exact Mongo.update_one_keys db id _

theorem Mongo.toggle_todo_keys (db : List Mongo.TodoDoc) (id : String) (now : Nat) :
    ((Mongo.toggle_todo db id now).2).map (fun d => (d.oid, d.created_at))
      = db.map (fun d => (d.oid, d.created_at)) := by
  rcases Mongo.toggle_todo_store_cases db id now with h | ⟨v, h⟩
  · rw [h]
  · rw [h]
    exact Mongo.update_one_keys db id _

/-! Claim theorems. -/

/-- C5: a string id that is not a well-formed ObjectId makes each
single-record todo handler (get, update, toggle, delete) fail with the
400 malformed-identifier error before any storage operation: the store
comes back unchanged and no 404 is produced. -/
theorem c5_malformed_id_rejected (db : List Mongo.TodoDoc) (id : String)
    (u : Mongo.TodoUpdate) (now : Nat)
    (hv : Mongo.isValidObjectId id = false) :
    (Mongo.invalidIdErr id).status = 400
    ∧ Mongo.get_todo db id = .error (Mongo.invalidIdErr id)
    ∧ Mongo.update_todo db id u now = (.error (Mongo.invalidIdErr id), db)
    ∧ Mongo.toggle_todo db id now = (.error (Mongo.invalidIdErr id), db)
    ∧ Mongo.delete_todo db id = (.error (Mongo.invalidIdErr id), db) := by
  refine ⟨rfl, ?_, ?_, ?_, ?_⟩ <;>
    simp [Mongo.get_todo, Mongo.update_todo, Mongo.toggle_todo, Mongo.delete_todo, hv]

theorem c5_witness :
    (Mongo.invalidIdErr "nope").status = 400
    ∧ Mongo.get_todo [] "nope" = .error (Mongo.invalidIdErr "nope")
    ∧ Mongo.update_todo [] "nope" ⟨none, none, none⟩ 0 = (.error (Mongo.invalidIdErr "nope"), [])
    ∧ Mongo.toggle_todo [] "nope" 0 = (.error (Mongo.invalidIdErr "nope"), [])
    ∧ Mongo.delete_todo [] "nope" = (.error (Mongo.invalidIdErr "nope"), []) :=
  c5_malformed_id_rejected [] "nope" ⟨none, none, none⟩ 0 (by decide)

/-- C2: the stats endpoint reports total = number of records, completed
= number of records with `complete = true`, pending = total − completed
(so completed + pending = total), and completion_rate equal to
completed / total × 100 rounded to two decimals, with rate 0 on an empty
store. -/
theorem c2_stats_summary (db : List Mongo.TodoDoc) :
    (Mongo.get_todo_stats db).total = db.length
    ∧ (Mongo.get_todo_stats db).completed = (db.filter (fun d => d.complete)).length
    ∧ (Mongo.get_todo_stats db).pending
        = (Mongo.get_todo_stats db).total - (Mongo.get_todo_stats db).completed
    ∧ (Mongo.get_todo_stats db).completed + (Mongo.get_todo_stats db).pending
        = (Mongo.get_todo_stats db).total
    ∧ ((Mongo.get_todo_stats db).total = 0 → (Mongo.get_todo_stats db).completion_rate = 0)
    ∧ (0 < (Mongo.get_todo_stats db).total →
        (Mongo.get_todo_stats db).completion_rate
          = Mongo.round2 (((Mongo.get_todo_stats db).completed : ℚ)
              / ((Mongo.get_todo_stats db).total : ℚ) * 100)) := by
  have hle : (db.filter (fun d => d.complete)).length ≤ db.length :=
    List.length_filter_le _ _
  have hdef : Mongo.get_todo_stats db =
      { total := db.length
        completed := (db.filter (fun d => d.complete)).length
        pending := db.length - (db.filter (fun d => d.complete)).length
        completion_rate :=
          if db.length > 0 then
            Mongo.round2 (((db.filter (fun d => d.complete)).length : ℚ)
              / (db.length : ℚ) * 100)
          else 0 } := rfl
  refine ⟨rfl, rfl, rfl, ?_, ?_, ?_⟩
  · rw [hdef]
    simp only
    omega
  · rw [hdef]
    simp only
    intro h
    simp [h]
  · rw [hdef]
    simp only
    intro h
    simp [Nat.pos_iff_ne_zero.mp h, h]

/-- C7: single-record delete succeeds exactly when a record with the id
exists, and removes exactly the first (hence, ids being unique, the only)
matching record; deleting the same id again answers the 404 not-found
error and leaves the store unchanged, so two deletes have the same effect
on the store as one.  Proved for the document-store todo delete and the
in-memory book delete. -/
theorem c7_delete_idempotent (db : List Mongo.TodoDoc) (id : String) (t : Mongo.TodoDoc)
    (books : List Mem.Book) (mbid : Nat) (i : Nat) (mb : Mem.Book)
    (hv : Mongo.isValidObjectId id = true)
    (hN : (db.map (fun d => d.oid)).Nodup)
    (hf : Mongo.find_one db id = some t)
    (hN2 : (books.map (fun b => b.id)).Nodup)
    (hm : Mem.find_book_by_id books mbid = some (i, mb)) :
    (Mongo.delete_todo db id = (.ok 204, db.eraseP (fun d => d.oid == id))
      ∧ (∀ d ∈ db, d.oid ≠ id → d ∈ db.eraseP (fun d => d.oid == id))
      ∧ (∀ d ∈ db.eraseP (fun d => d.oid == id), d ∈ db)
      ∧ Mongo.find_one (db.eraseP (fun d => d.oid == id)) id = none
      ∧ Mongo.delete_todo (db.eraseP (fun d => d.oid == id)) id
          = (.error (Mongo.notFoundErr id), db.eraseP (fun d => d.oid == id))
      ∧ (∀ (db2 : List Mongo.TodoDoc) (id2 : String), Mongo.isValidObjectId id2 = true →
          Mongo.find_one db2 id2 = none →
          Mongo.delete_todo db2 id2 = (.error (Mongo.notFoundErr id2), db2)))
    ∧ (Mem.delete_book books mbid = (.ok (200, mb), books.eraseP (fun b => b.id == mbid))
      ∧ Mem.find_book_by_id (books.eraseP (fun b => b.id == mbid)) mbid = none
      ∧ Mem.delete_book (books.eraseP (fun b => b.id == mbid)) mbid
          = (.error (Mem.bookNotFound mbid), books.eraseP (fun b => b.id == mbid))
      ∧ (∀ (books2 : List Mem.Book) (bid2 : Nat),
          Mem.find_book_by_id books2 bid2 = none →
          Mem.delete_book books2 bid2 = (.error (Mem.bookNotFound bid2), books2))) := by
  have hf' : List.find? (fun d => d.oid == id) db = some t := hf
  have ht_mem : t ∈ db := List.mem_of_find?_eq_some hf'
  have ht_p : (t.oid == id) = true := by
    have hq := List.find?_some hf'
    simpa using hq
  have hlen : (db.eraseP (fun d => d.oid == id)).length = db.length - 1 :=
    List.length_eraseP_of_mem ht_mem ht_p
  have hpos : 0 < db.length := List.length_pos.mpr (List.ne_nil_of_mem ht_mem)
  have hdiff : db.length - (db.eraseP (fun d => d.oid == id)).length = 1 := by omega
  have hnomatch : ∀ x ∈ db.eraseP (fun d => d.oid == id), (x.oid == id) = false :=
    eraseP_no_match _ db (countP_le_one_of_nodup_map (fun d => d.oid) db hN id)
  have herase2 : (db.eraseP (fun d => d.oid == id)).eraseP (fun d => d.oid == id)
      = db.eraseP (fun d => d.oid == id) :=
    List.eraseP_of_forall_not (fun a ha => by simp [hnomatch a ha])
  have hnm2 : ∀ x ∈ books.eraseP (fun b => b.id == mbid), (x.id == mbid) = false :=
    eraseP_no_match _ books (countP_le_one_of_nodup_map (fun b => b.id) books hN2 mbid)
  have hfindnone2 : Mem.find_book_by_id (books.eraseP (fun b => b.id == mbid)) mbid = none :=
    Mem.find_book_by_id_none _ _ hnm2
  refine ⟨⟨?_, ?_, ?_, ?_, ?_, ?_⟩, ⟨?_, hfindnone2, ?_, ?_⟩⟩
  · rw [Mongo.delete_todo, if_pos hv]
    simp [Mongo.delete_one, hdiff]
  · intro d hd hne
    exact (List.mem_eraseP_of_neg (by simp [hne])).mpr hd
  · intro d hd
    exact (List.eraseP_sublist db).subset hd
  · exact List.find?_eq_none.mpr (fun x hx => by simp [hnomatch x hx])
  · rw [Mongo.delete_todo, if_pos hv]
    simp [Mongo.delete_one, herase2]
  · intro db2 id2 h1 h2
    have hall : ∀ x ∈ db2, ((fun d => d.oid == id2) x) = false :=
      fun x hx => by simpa using List.find?_eq_none.mp h2 x hx
    have he : db2.eraseP (fun d => d.oid == id2) = db2 :=
      List.eraseP_of_forall_not (fun a ha => by simp [hall a ha])
    rw [Mongo.delete_todo, if_pos h1]
    simp [Mongo.delete_one, he]
  · rw [Mem.delete_book, hm]
    dsimp only
    rw [Mem.eraseIdx_of_found books mbid i mb hm]
  · rw [Mem.delete_book, hfindnone2]
  · intro books2 bid2 h2
    rw [Mem.delete_book, h2]

theorem c7_witness :
    (Mongo.delete_todo
        [⟨"0123456789abcdef01234567", "n", "d", false, 0, 0⟩,
         ⟨"0123456789abcdef01234568", "m", "e", true, 0, 0⟩] "0123456789abcdef01234567"
      = (.ok 204,
          List.eraseP (fun d => d.oid == "0123456789abcdef01234567")
            [⟨"0123456789abcdef01234567", "n", "d", false, 0, 0⟩,
             ⟨"0123456789abcdef01234568", "m", "e", true, 0, 0⟩])
      ∧ (∀ d ∈ [(⟨"0123456789abcdef01234567", "n", "d", false, 0, 0⟩ : Mongo.TodoDoc),
             ⟨"0123456789abcdef01234568", "m", "e", true, 0, 0⟩],
          d.oid ≠ "0123456789abcdef01234567" →
          d ∈ List.eraseP (fun d => d.oid == "0123456789abcdef01234567")
            [⟨"0123456789abcdef01234567", "n", "d", false, 0, 0⟩,
             ⟨"0123456789abcdef01234568", "m", "e", true, 0, 0⟩])
      ∧ (∀ d ∈ List.eraseP (fun d => d.oid == "0123456789abcdef01234567")
            [(⟨"0123456789abcdef01234567", "n", "d", false, 0, 0⟩ : Mongo.TodoDoc),
             ⟨"0123456789abcdef01234568", "m", "e", true, 0, 0⟩],
          d ∈ [(⟨"0123456789abcdef01234567", "n", "d", false, 0, 0⟩ : Mongo.TodoDoc),
             ⟨"0123456789abcdef01234568", "m", "e", true, 0, 0⟩])
      ∧ Mongo.find_one
          (List.eraseP (fun d => d.oid == "0123456789abcdef01234567")
            [⟨"0123456789abcdef01234567", "n", "d", false, 0, 0⟩,
             ⟨"0123456789abcdef01234568", "m", "e", true, 0, 0⟩]) "0123456789abcdef01234567"
          = none
      ∧ Mongo.delete_todo
          (List.eraseP (fun d => d.oid == "0123456789abcdef01234567")
            [⟨"0123456789abcdef01234567", "n", "d", false, 0, 0⟩,
             ⟨"0123456789abcdef01234568", "m", "e", true, 0, 0⟩]) "0123456789abcdef01234567"
          = (.error (Mongo.notFoundErr "0123456789abcdef01234567"),
              List.eraseP (fun d => d.oid == "0123456789abcdef01234567")
                [⟨"0123456789abcdef01234567", "n", "d", false, 0, 0⟩,
                 ⟨"0123456789abcdef01234568", "m", "e", true, 0, 0⟩])
      ∧ (∀ (db2 : List Mongo.TodoDoc) (id2 : String), Mongo.isValidObjectId id2 = true →
          Mongo.find_one db2 id2 = none →
          Mongo.delete_todo db2 id2 = (.error (Mongo.notFoundErr id2), db2)))
    ∧ (Mem.delete_book [⟨4, "bt", "ba", "bd", 7⟩] 4
        = (.ok (200, ⟨4, "bt", "ba", "bd", 7⟩),
            List.eraseP (fun b => b.id == 4) [⟨4, "bt", "ba", "bd", 7⟩])
      ∧ Mem.find_book_by_id (List.eraseP (fun b => b.id == 4) [⟨4, "bt", "ba", "bd", 7⟩]) 4
          = none
      ∧ Mem.delete_book (List.eraseP (fun b => b.id == 4) [⟨4, "bt", "ba", "bd", 7⟩]) 4
          = (.error (Mem.bookNotFound 4),
              List.eraseP (fun b => b.id == 4) [⟨4, "bt", "ba", "bd", 7⟩])
      ∧ (∀ (books2 : List Mem.Book) (bid2 : Nat),
          Mem.find_book_by_id books2 bid2 = none →
          Mem.delete_book books2 bid2 = (.error (Mem.bookNotFound bid2), books2))) :=
  c7_delete_idempotent
    [⟨"0123456789abcdef01234567", "n", "d", false, 0, 0⟩,
     ⟨"0123456789abcdef01234568", "m", "e", true, 0, 0⟩]
    "0123456789abcdef01234567" ⟨"0123456789abcdef01234567", "n", "d", false, 0, 0⟩
    [⟨4, "bt", "ba", "bd", 7⟩] 4 0 ⟨4, "bt", "ba", "bd", 7⟩
    (by decide) (by decide) (by decide) (by decide) (by decide)

/-- C9 counterexample: `ilike` receives the raw parameter between `%`
signs with no escaping, so `%` acts as a wildcard rather than a literal:
searching title `a%b` returns the book titled `aXb`, although `a%b` is
not a case-insensitive substring of `aXb`.  Inclusion is therefore not
equivalent to substring matching. -/
theorem c9_counterexample :
    Sql.search_books (some "a%b") none none [⟨1, "aXb", "A", none, 0⟩]
      = [⟨1, "aXb", "A", none, 0⟩]
    ∧ specSubstringInsensitive "a%b" (⟨1, "aXb", "A", none, 0⟩ : Sql.Book).title = false := by
  decide

/-- C9 amended: a book is in the search result iff it is stored and
satisfies every provided predicate, combined with AND: rating at least
`min_rating`, and title/author matching the parameter under
case-insensitive SQL LIKE semantics of `%param%` — substring matching
except that `%` and `_` inside the parameter act as wildcards.  An
absent parameter (and likewise an empty-string parameter, which Python
truthiness skips and which as a pattern matches everything) imposes no
constraint. -/
theorem c9_search_and_semantics (title author : Option String) (min_rating : Option Int)
    (db : List Sql.Book) (b : Sql.Book) :
    b ∈ Sql.search_books title author min_rating db
      ↔ b ∈ db
        ∧ (∀ t, title = some t → Sql.ilikeContains t b.title = true)
        ∧ (∀ a, author = some a → Sql.ilikeContains a b.author = true)
        ∧ (∀ r, min_rating = some r → r ≤ b.rating) := by
  have hstep : ∀ (o : Option String) (l : List Sql.Book) (f : Sql.Book → String),
      (b ∈ (if Sql.truthy o then l.filter (fun x => Sql.ilikeContains (o.getD "") (f x)) else l))
        ↔ (b ∈ l ∧ ∀ t, o = some t → Sql.ilikeContains t (f b) = true) := by
    intro o l f
    match o with
    | none => simp [Sql.truthy]
    | some s =>
      by_cases hs : s = ""
      · subst hs
        simp [Sql.truthy, Sql.ilikeContains_empty]
      · have htr : Sql.truthy (some s) = true := by simp [Sql.truthy, hs]
        simp [htr, List.mem_filter]
  rcases min_rating with _ | r
  · simp only [Sql.search_books]
    rw [hstep author _ (fun x => x.author), hstep title db (fun x => x.title)]
    constructor
    · rintro ⟨⟨h1, h2⟩, h3⟩
      exact ⟨h1, h2, h3, by rintro r ⟨⟩⟩
    · rintro ⟨h1, h2, h3, -⟩
      exact ⟨⟨h1, h2⟩, h3⟩
  · simp only [Sql.search_books, List.mem_filter]
    rw [hstep author _ (fun x => x.author), hstep title db (fun x => x.title)]
    constructor
    · rintro ⟨⟨⟨h1, h2⟩, h3⟩, h4⟩
      refine ⟨h1, h2, h3, ?_⟩
      rintro r' hr'
      cases hr'
      simpa using h4
    · rintro ⟨h1, h2, h3, h4⟩
      refine ⟨⟨⟨h1, h2⟩, h3⟩, ?_⟩
      simpa using h4 r rfl

/-- C10: in the document-store update a payload field whose value is
null is treated exactly like an omitted field (`model_dump()` reports
both as `None`, and the handler keeps only non-`None` entries): it is
never written, so the updated record keeps the old value of every such
field, and a payload whose fields are all null is rejected with the 400
"No valid fields to update" error, the store unchanged. -/
theorem c10_null_fields_ignored (db : List Mongo.TodoDoc) (id : String)
    (t : Mongo.TodoDoc) (u : Mongo.TodoUpdate) (now : Nat)
    (hv : Mongo.isValidObjectId id = true)
    (hf : Mongo.find_one db id = some t) :
    (Mongo.noFields u = true →
      Mongo.update_todo db id u now = (.error ⟨400, "No valid fields to update"⟩, db))
    ∧ (u.name = none ∧ u.description = none ∧ u.complete = none → Mongo.noFields u = true)
    ∧ (Mongo.noFields u = false →
      Mongo.update_todo db id u now
        = (.ok (200, Mongo.individual_serial
              (Mongo.applySet t ⟨u.name, u.description, u.complete, some now⟩)),
            Mongo.update_one db id ⟨u.name, u.description, u.complete, some now⟩))
    ∧ (u.name = none →
        (Mongo.applySet t ⟨u.name, u.description, u.complete, some now⟩).name = t.name)
    ∧ (u.description = none →
        (Mongo.applySet t ⟨u.name, u.description, u.complete, some now⟩).description
          = t.description)
    ∧ (u.complete = none →
        (Mongo.applySet t ⟨u.name, u.description, u.complete, some now⟩).complete
          = t.complete) := by
  have hfu := Mongo.find_one_update_one db id ⟨u.name, u.description, u.complete, some now⟩
  rw [hf] at hfu
  refine ⟨?_, ?_, ?_, ?_, ?_, ?_⟩
  · intro h
    rw [Mongo.update_todo, if_pos hv, hf]
    simp only [h, if_true]
  · rintro ⟨h1, h2, h3⟩
    simp [Mongo.noFields, h1, h2, h3]
  · intro h
    rw [Mongo.update_todo, if_pos hv, hf]
    simp only [h, Bool.false_eq_true, if_false, hfu, Option.map_some']
  · intro h
    simp [Mongo.applySet, h]
  · intro h
    simp [Mongo.applySet, h]
  · intro h
    simp [Mongo.applySet, h]

theorem c10_witness :
    (Mongo.noFields ⟨none, none, none⟩ = true →
      Mongo.update_todo [⟨"0123456789abcdef01234567", "n", "d", false, 0, 0⟩]
          "0123456789abcdef01234567" ⟨none, none, none⟩ 5
        = (.error ⟨400, "No valid fields to update"⟩,
            [⟨"0123456789abcdef01234567", "n", "d", false, 0, 0⟩]))
    ∧ ((none : Option String) = none ∧ (none : Option String) = none
        ∧ (none : Option Bool) = none → Mongo.noFields ⟨none, none, none⟩ = true)
    ∧ (Mongo.noFields ⟨none, none, none⟩ = false →
      Mongo.update_todo [⟨"0123456789abcdef01234567", "n", "d", false, 0, 0⟩]
          "0123456789abcdef01234567" ⟨none, none, none⟩ 5
        = (.ok (200, Mongo.individual_serial
              (Mongo.applySet ⟨"0123456789abcdef01234567", "n", "d", false, 0, 0⟩
                ⟨none, none, none, some 5⟩)),
            Mongo.update_one [⟨"0123456789abcdef01234567", "n", "d", false, 0, 0⟩]
              "0123456789abcdef01234567" ⟨none, none, none, some 5⟩))
    ∧ ((none : Option String) = none →
        (Mongo.applySet ⟨"0123456789abcdef01234567", "n", "d", false, 0, 0⟩
          ⟨none, none, none, some 5⟩).name = "n")
    ∧ ((none : Option String) = none →
        (Mongo.applySet ⟨"0123456789abcdef01234567", "n", "d", false, 0, 0⟩
          ⟨none, none, none, some 5⟩).description = "d")
    ∧ ((none : Option Bool) = none →
        (Mongo.applySet ⟨"0123456789abcdef01234567", "n", "d", false, 0, 0⟩
          ⟨none, none, none, some 5⟩).complete = false) :=
  c10_null_fields_ignored [⟨"0123456789abcdef01234567", "n", "d", false, 0, 0⟩]
    "0123456789abcdef01234567" ⟨"0123456789abcdef01234567", "n", "d", false, 0, 0⟩
    ⟨none, none, none⟩ 5 (by decide) (by decide)

/-- C8: after any sequence of create, update and toggle operations run
at nondecreasing clock readings over a well-formed store, every stored
todo satisfies `created_at ≤ updated_at`; moreover update and toggle
never modify any record's id or `created_at` (they only refresh
`updated_at` and the touched payload fields), and create initializes
`created_at` and `updated_at` from the two clock readings taken at
creation. -/
theorem c8_timestamp_invariant (db : List Mongo.TodoDoc) (t0 : Nat)
    (ops : List (Mongo.Op × Nat))
    (hb : Mongo.Bounded db t0) (hm : Mongo.Mono t0 ops) :
    (∀ d ∈ Mongo.run db ops, d.created_at ≤ d.updated_at)
    ∧ (∀ (db2 : List Mongo.TodoDoc) (id : String) (u : Mongo.TodoUpdate) (now : Nat),
        ((Mongo.update_todo db2 id u now).2).map (fun d => (d.oid, d.created_at))
          = db2.map (fun d => (d.oid, d.created_at)))
    ∧ (∀ (db2 : List Mongo.TodoDoc) (id : String) (now : Nat),
        ((Mongo.toggle_todo db2 id now).2).map (fun d => (d.oid, d.created_at))
          = db2.map (fun d => (d.oid, d.created_at)))
    ∧ (∀ (db2 : List Mongo.TodoDoc) (c : Mongo.TodoCreate) (oid : String) (t1 t2 : Nat),
        (Mongo.create_todo db2 c oid t1 t2).2
          = db2 ++ [⟨oid, c.name, c.description, c.complete, t1, t2⟩]) :=
  ⟨Mongo.run_created_le_updated ops db t0 hb hm,
   Mongo.update_todo_keys, Mongo.toggle_todo_keys, Mongo.create_todo_store⟩

theorem c8_witness :
    (∀ d ∈ Mongo.run []
        [(Mongo.Op.create ⟨"a", "b", false⟩ "0123456789abcdef01234567", 1),
         (Mongo.Op.toggle "0123456789abcdef01234567", 2)],
      d.created_at ≤ d.updated_at)
    ∧ (∀ (db2 : List Mongo.TodoDoc) (id : String) (u : Mongo.TodoUpdate) (now : Nat),
        ((Mongo.update_todo db2 id u now).2).map (fun d => (d.oid, d.created_at))
          = db2.map (fun d => (d.oid, d.created_at)))
    ∧ (∀ (db2 : List Mongo.TodoDoc) (id : String) (now : Nat),
        ((Mongo.toggle_todo db2 id now).2).map (fun d => (d.oid, d.created_at))
          = db2.map (fun d => (d.oid, d.created_at)))
    ∧ (∀ (db2 : List Mongo.TodoDoc) (c : Mongo.TodoCreate) (oid : String) (t1 t2 : Nat),
        (Mongo.create_todo db2 c oid t1 t2).2
          = db2 ++ [⟨oid, c.name, c.description, c.complete, t1, t2⟩]) :=
  c8_timestamp_invariant [] 0
    [(Mongo.Op.create ⟨"a", "b", false⟩ "0123456789abcdef01234567", 1),
     (Mongo.Op.toggle "0123456789abcdef01234567", 2)]
    (by intro d hd; cases hd) ⟨by omega, by omega, trivial⟩

/-- C6 counterexample: on a store holding one completed todo the bulk
delete removes that todo but its body is a `message` string; it has no
`deletedCount` key, so the claimed body shape is wrong. -/
theorem c6_counterexample :
    (Mongo.delete_completed_todos
        [⟨"0123456789abcdef01234567", "a", "b", true, 0, 0⟩]).1.2
      = [("message", JVal.str "Deleted 1 completed todos")]
    ∧ (Mongo.delete_completed_todos
        [⟨"0123456789abcdef01234567", "a", "b", true, 0, 0⟩]).1.2.lookup "deletedCount"
        = none
    ∧ (([⟨"0123456789abcdef01234567", "a", "b", true, 0, 0⟩] :
          List Mongo.TodoDoc).filter (fun d => d.complete)).length = 1 := by
  decide

/-- C6 amended: both bulk delete endpoints succeed unconditionally with
status 200 and a `message` body embedding the number of records removed
(not a `deletedCount` field); zero matches yield success reporting 0 and
leave the store unchanged. -/
theorem c6_bulk_delete (db : List Mongo.TodoDoc) (sdb : List Sql.Book) :
    Mongo.delete_completed_todos db
      = ((200, [("message", JVal.str ("Deleted "
            ++ toString (db.filter (fun d => d.complete)).length
            ++ " completed todos"))]),
          db.filter (fun d => !d.complete))
    ∧ ((db.filter (fun d => d.complete)).length = 0 →
        db.filter (fun d => !d.complete) = db)
    ∧ Sql.delete_all_books sdb
      = ((200, [("message", JVal.str ("Successfully deleted "
            ++ toString sdb.length ++ " book(s)"))]), [])
    ∧ (sdb.length = 0 → (Sql.delete_all_books sdb).2 = sdb) := by
  refine ⟨rfl, ?_, rfl, ?_⟩
  · intro h
    rw [List.length_eq_zero, List.filter_eq_nil_iff] at h
    rw [List.filter_eq_self]
    intro a ha
    simpa using h a ha
  · intro h
    rw [List.length_eq_zero] at h
    rw [h]
    rfl

/-- C3: toggling an existing todo negates the stored `complete` flag and
refreshes `updated_at`; toggling the same id twice restores the original
`complete` value (and every field except `updated_at`); toggling an id
that matches no record answers the 404 not-found error and leaves the
store unchanged. -/
theorem c3_toggle_involution (db : List Mongo.TodoDoc) (id : String)
    (t : Mongo.TodoDoc) (now now2 : Nat)
    (hv : Mongo.isValidObjectId id = true)
    (hf : Mongo.find_one db id = some t) :
    Mongo.toggle_todo db id now
      = (.ok (200, Mongo.individual_serial
            (Mongo.applySet t ⟨none, none, some (!t.complete), some now⟩)),
          Mongo.update_one db id ⟨none, none, some (!t.complete), some now⟩)
    ∧ (Mongo.applySet t ⟨none, none, some (!t.complete), some now⟩).complete = !t.complete
    ∧ (Mongo.applySet t ⟨none, none, some (!t.complete), some now⟩).updated_at = now
    ∧ (Mongo.applySet t ⟨none, none, some (!t.complete), some now⟩).created_at = t.created_at
    ∧ Mongo.find_one ((Mongo.toggle_todo (Mongo.toggle_todo db id now).2 id now2).2) id
        = some ⟨t.oid, t.name, t.description, t.complete, t.created_at, now2⟩
    ∧ (∀ (db2 : List Mongo.TodoDoc) (id2 : String) (now3 : Nat),
        Mongo.isValidObjectId id2 = true → Mongo.find_one db2 id2 = none →
        Mongo.toggle_todo db2 id2 now3 = (.error (Mongo.notFoundErr id2), db2)) := by
  have h1 := Mongo.toggle_todo_found db id t now hv hf
  refine ⟨h1, rfl, rfl, rfl, ?_, ?_⟩
  · have hfu1 := Mongo.find_one_update_one db id ⟨none, none, some (!t.complete), some now⟩
    rw [hf] at hfu1
    simp only [Option.map_some'] at hfu1
    have h2 := Mongo.toggle_todo_found
      (Mongo.update_one db id ⟨none, none, some (!t.complete), some now⟩) id
      (Mongo.applySet t ⟨none, none, some (!t.complete), some now⟩) now2 hv hfu1
    rw [h1]
    dsimp only
    rw [h2]
    dsimp only
    have hfu2 := Mongo.find_one_update_one
      (Mongo.update_one db id ⟨none, none, some (!t.complete), some now⟩) id
      ⟨none, none,
        some (!(Mongo.applySet t ⟨none, none, some (!t.complete), some now⟩).complete),
        some now2⟩
    rw [hfu1] at hfu2
    simp only [Option.map_some'] at hfu2
    rw [hfu2]
    simp [Mongo.applySet]
  · intro db2 id2 now3 h1' h2'
    rw [Mongo.toggle_todo, if_pos h1', h2']

theorem c3_witness :
    Mongo.toggle_todo [⟨"0123456789abcdef01234567", "n", "d", false, 0, 0⟩]
        "0123456789abcdef01234567" 1
      = (.ok (200, Mongo.individual_serial
            (Mongo.applySet ⟨"0123456789abcdef01234567", "n", "d", false, 0, 0⟩
              ⟨none, none, some (!false), some 1⟩)),
          Mongo.update_one [⟨"0123456789abcdef01234567", "n", "d", false, 0, 0⟩]
            "0123456789abcdef01234567" ⟨none, none, some (!false), some 1⟩)
    ∧ (Mongo.applySet ⟨"0123456789abcdef01234567", "n", "d", false, 0, 0⟩
        ⟨none, none, some (!false), some 1⟩).complete = !false
    ∧ (Mongo.applySet ⟨"0123456789abcdef01234567", "n", "d", false, 0, 0⟩
        ⟨none, none, some (!false), some 1⟩).updated_at = 1
    ∧ (Mongo.applySet ⟨"0123456789abcdef01234567", "n", "d", false, 0, 0⟩
        ⟨none, none, some (!false), some 1⟩).created_at = 0
    ∧ Mongo.find_one
        ((Mongo.toggle_todo
          (Mongo.toggle_todo [⟨"0123456789abcdef01234567", "n", "d", false, 0, 0⟩]
            "0123456789abcdef01234567" 1).2 "0123456789abcdef01234567" 2).2)
        "0123456789abcdef01234567"
        = some ⟨"0123456789abcdef01234567", "n", "d", false, 0, 2⟩
    ∧ (∀ (db2 : List Mongo.TodoDoc) (id2 : String) (now3 : Nat),
        Mongo.isValidObjectId id2 = true → Mongo.find_one db2 id2 = none →
        Mongo.toggle_todo db2 id2 now3 = (.error (Mongo.notFoundErr id2), db2)) :=
  c3_toggle_involution [⟨"0123456789abcdef01234567", "n", "d", false, 0, 0⟩]
    "0123456789abcdef01234567" ⟨"0123456789abcdef01234567", "n", "d", false, 0, 0⟩
    1 2 (by decide) (by decide)

/-- C4: the document-store update rejects a payload contributing no
fields with the 400 "No valid fields to update" error and leaves the
record and store unchanged, while the relational update accepts an empty
payload silently, answering 200 with the unchanged record and an
unchanged table: the two variants implement different empty-update
policies. -/
theorem c4_empty_update_policy (db : List Mongo.TodoDoc) (id : String)
    (t : Mongo.TodoDoc) (now : Nat) (sdb : List Sql.Book) (bid : Int) (book : Sql.Book)
    (hv : Mongo.isValidObjectId id = true)
    (hf : Mongo.find_one db id = some t)
    (hb : sdb.find? (fun b => b.id == bid) = some book) :
    Mongo.update_todo db id ⟨none, none, none⟩ now
      = (.error ⟨400, "No valid fields to update"⟩, db)
    ∧ Sql.update_book sdb bid ⟨none, none, none, none⟩ = (.ok (200, book), sdb) := by
  constructor
  · simp [Mongo.update_todo, hv, hf, Mongo.noFields]
  · have hmerge : Sql.applyUpdate book ⟨none, none, none, none⟩ = book := by
      cases book
      simp [Sql.applyUpdate]
    rw [Sql.update_book, hb]
    simp only [hmerge]
    rw [Sql.setFirst_self sdb bid book hb]

/-- C1: in all three variants a partial update overwrites exactly the
provided fields: any field absent from the payload keeps its stored
value, the handler returns the merged record, and that record is what a
subsequent lookup of the same id finds (the post-update record). -/
theorem c1_partial_update_frame
    (sdb : List Sql.Book) (bid : Int) (book : Sql.Book) (p : Sql.BookUpdate)
    (books : List Mem.Book) (mbid : Nat) (i : Nat) (mbook : Mem.Book) (q : Mem.BookUpdate)
    (db : List Mongo.TodoDoc) (id : String) (t : Mongo.TodoDoc) (u : Mongo.TodoUpdate)
    (now : Nat)
    (hb : sdb.find? (fun b => b.id == bid) = some book)
    (hm : Mem.find_book_by_id books mbid = some (i, mbook))
    (hv : Mongo.isValidObjectId id = true)
    (hf : Mongo.find_one db id = some t)
    (hnf : Mongo.noFields u = false) :
    (Sql.update_book sdb bid p
        = (.ok (200, Sql.applyUpdate book p), Sql.setFirst sdb bid (Sql.applyUpdate book p))
      ∧ (p.title = none → (Sql.applyUpdate book p).title = book.title)
      ∧ (p.author = none → (Sql.applyUpdate book p).author = book.author)
      ∧ (p.description = none → (Sql.applyUpdate book p).description = book.description)
      ∧ (p.rating = none → (Sql.applyUpdate book p).rating = book.rating)
      ∧ (Sql.setFirst sdb bid (Sql.applyUpdate book p)).find? (fun b => b.id == bid)
          = some (Sql.applyUpdate book p))
    ∧ (Mem.update_book books mbid q
        = (.ok (200, Mem.model_copy mbook q), books.set i (Mem.model_copy mbook q))
      ∧ (q.title = none → (Mem.model_copy mbook q).title = mbook.title)
      ∧ (q.author = none → (Mem.model_copy mbook q).author = mbook.author)
      ∧ (q.description = none → (Mem.model_copy mbook q).description = mbook.description)
      ∧ (q.rating = none → (Mem.model_copy mbook q).rating = mbook.rating)
      ∧ Mem.find_book_by_id (books.set i (Mem.model_copy mbook q)) mbid
          = some (i, Mem.model_copy mbook q))
    ∧ (Mongo.update_todo db id u now
        = (.ok (200, Mongo.individual_serial
              (Mongo.applySet t ⟨u.name, u.description, u.complete, some now⟩)),
            Mongo.update_one db id ⟨u.name, u.description, u.complete, some now⟩)
      ∧ (u.name = none →
          (Mongo.applySet t ⟨u.name, u.description, u.complete, some now⟩).name = t.name)
      ∧ (u.description = none →
          (Mongo.applySet t ⟨u.name, u.description, u.complete, some now⟩).description
            = t.description)
      ∧ (u.complete = none →
          (Mongo.applySet t ⟨u.name, u.description, u.complete, some now⟩).complete
            = t.complete)
      ∧ Mongo.find_one (Mongo.update_one db id ⟨u.name, u.description, u.complete, some now⟩) id
          = some (Mongo.applySet t ⟨u.name, u.description, u.complete, some now⟩)) := by
  have hfu := Mongo.find_one_update_one db id ⟨u.name, u.description, u.complete, some now⟩
  rw [hf] at hfu
  refine ⟨⟨?_, ?_, ?_, ?_, ?_, ?_⟩, ⟨?_, ?_, ?_, ?_, ?_, ?_⟩, ⟨?_, ?_, ?_, ?_, ?_⟩⟩
  · rw [Sql.update_book, hb]
  · intro h; simp [Sql.applyUpdate, h]
  · intro h; simp [Sql.applyUpdate, h]
  · intro h; simp [Sql.applyUpdate, h]
  · intro h; simp [Sql.applyUpdate, h]
  · exact Sql.find?_setFirst sdb bid book (Sql.applyUpdate book p) hb rfl
  · rw [Mem.update_book, hm]
  · intro h; simp [Mem.model_copy, h]
  · intro h; simp [Mem.model_copy, h]
  · intro h; simp [Mem.model_copy, h]
  · intro h; simp [Mem.model_copy, h]
  · exact Mem.find_book_by_id_set books mbid i mbook (Mem.model_copy mbook q) hm rfl
  · rw [Mongo.update_todo, if_pos hv, hf]
    simp only [hnf, Bool.false_eq_true, if_false, hfu, Option.map_some']
  · intro h; simp [Mongo.applySet, h]
  · intro h; simp [Mongo.applySet, h]
  · intro h; simp [Mongo.applySet, h]
  · exact hfu

theorem c1_witness :
    (Sql.update_book [⟨1, "t", "a", none, 5⟩] 1 ⟨none, none, none, some 9⟩
        = (.ok (200, Sql.applyUpdate ⟨1, "t", "a", none, 5⟩ ⟨none, none, none, some 9⟩),
            Sql.setFirst [⟨1, "t", "a", none, 5⟩] 1
              (Sql.applyUpdate ⟨1, "t", "a", none, 5⟩ ⟨none, none, none, some 9⟩))
      ∧ ((none : Option String) = none →
          (Sql.applyUpdate ⟨1, "t", "a", none, 5⟩ ⟨none, none, none, some 9⟩).title = "t")
      ∧ ((none : Option String) = none →
          (Sql.applyUpdate ⟨1, "t", "a", none, 5⟩ ⟨none, none, none, some 9⟩).author = "a")
      ∧ ((none : Option String) = none →
          (Sql.applyUpdate ⟨1, "t", "a", none, 5⟩ ⟨none, none, none, some 9⟩).description = none)
      ∧ ((some 9 : Option Int) = none →
          (Sql.applyUpdate ⟨1, "t", "a", none, 5⟩ ⟨none, none, none, some 9⟩).rating = 5)
      ∧ (Sql.setFirst [⟨1, "t", "a", none, 5⟩] 1
            (Sql.applyUpdate ⟨1, "t", "a", none, 5⟩ ⟨none, none, none, some 9⟩)).find?
              (fun b => b.id == 1)
          = some (Sql.applyUpdate ⟨1, "t", "a", none, 5⟩ ⟨none, none, none, some 9⟩))
    ∧ (Mem.update_book [⟨2, "bt", "ba", "bd", 7⟩] 2 ⟨none, none, none, some 9⟩
        = (.ok (200, Mem.model_copy ⟨2, "bt", "ba", "bd", 7⟩ ⟨none, none, none, some 9⟩),
            [⟨2, "bt", "ba", "bd", 7⟩].set 0
              (Mem.model_copy ⟨2, "bt", "ba", "bd", 7⟩ ⟨none, none, none, some 9⟩))
      ∧ ((none : Option String) = none →
          (Mem.model_copy ⟨2, "bt", "ba", "bd", 7⟩ ⟨none, none, none, some 9⟩).title = "bt")
      ∧ ((none : Option String) = none →
          (Mem.model_copy ⟨2, "bt", "ba", "bd", 7⟩ ⟨none, none, none, some 9⟩).author = "ba")
      ∧ ((none : Option String) = none →
          (Mem.model_copy ⟨2, "bt", "ba", "bd", 7⟩ ⟨none, none, none, some 9⟩).description = "bd")
      ∧ ((some 9 : Option Int) = none →
          (Mem.model_copy ⟨2, "bt", "ba", "bd", 7⟩ ⟨none, none, none, some 9⟩).rating = 7)
      ∧ Mem.find_book_by_id
            ([⟨2, "bt", "ba", "bd", 7⟩].set 0
              (Mem.model_copy ⟨2, "bt", "ba", "bd", 7⟩ ⟨none, none, none, some 9⟩)) 2
          = some (0, Mem.model_copy ⟨2, "bt", "ba", "bd", 7⟩ ⟨none, none, none, some 9⟩))
    ∧ (Mongo.update_todo [⟨"0123456789abcdef01234567", "n", "d", false, 0, 0⟩]
          "0123456789abcdef01234567" ⟨some "n2", none, none⟩ 3
        = (.ok (200, Mongo.individual_serial
              (Mongo.applySet ⟨"0123456789abcdef01234567", "n", "d", false, 0, 0⟩
                ⟨some "n2", none, none, some 3⟩)),
            Mongo.update_one [⟨"0123456789abcdef01234567", "n", "d", false, 0, 0⟩]
              "0123456789abcdef01234567" ⟨some "n2", none, none, some 3⟩)
      ∧ ((some "n2" : Option String) = none →
          (Mongo.applySet ⟨"0123456789abcdef01234567", "n", "d", false, 0, 0⟩
            ⟨some "n2", none, none, some 3⟩).name = "n")
      ∧ ((none : Option String) = none →
          (Mongo.applySet ⟨"0123456789abcdef01234567", "n", "d", false, 0, 0⟩
            ⟨some "n2", none, none, some 3⟩).description = "d")
      ∧ ((none : Option Bool) = none →
          (Mongo.applySet ⟨"0123456789abcdef01234567", "n", "d", false, 0, 0⟩
            ⟨some "n2", none, none, some 3⟩).complete = false)
      ∧ Mongo.find_one
            (Mongo.update_one [⟨"0123456789abcdef01234567", "n", "d", false, 0, 0⟩]
              "0123456789abcdef01234567" ⟨some "n2", none, none, some 3⟩)
            "0123456789abcdef01234567"
          = some (Mongo.applySet ⟨"0123456789abcdef01234567", "n", "d", false, 0, 0⟩
              ⟨some "n2", none, none, some 3⟩)) :=
  c1_partial_update_frame [⟨1, "t", "a", none, 5⟩] 1 ⟨1, "t", "a", none, 5⟩
    ⟨none, none, none, some 9⟩ [⟨2, "bt", "ba", "bd", 7⟩] 2 0 ⟨2, "bt", "ba", "bd", 7⟩
    ⟨none, none, none, some 9⟩ [⟨"0123456789abcdef01234567", "n", "d", false, 0, 0⟩]
    "0123456789abcdef01234567" ⟨"0123456789abcdef01234567", "n", "d", false, 0, 0⟩
    ⟨some "n2", none, none⟩ 3 (by decide) (by decide) (by decide) (by decide) (by decide)

theorem c4_witness :
    Mongo.update_todo [⟨"0123456789abcdef01234567", "a", "b", false, 0, 0⟩]
        "0123456789abcdef01234567" ⟨none, none, none⟩ 7
      = (.error ⟨400, "No valid fields to update"⟩,
          [⟨"0123456789abcdef01234567", "a", "b", false, 0, 0⟩])
    ∧ Sql.update_book [⟨1, "t", "a", none, 5⟩] 1 ⟨none, none, none, none⟩
      = (.ok (200, ⟨1, "t", "a", none, 5⟩), [⟨1, "t", "a", none, 5⟩]) :=
  c4_empty_update_policy [⟨"0123456789abcdef01234567", "a", "b", false, 0, 0⟩]
    "0123456789abcdef01234567" ⟨"0123456789abcdef01234567", "a", "b", false, 0, 0⟩ 7
    [⟨1, "t", "a", none, 5⟩] 1 ⟨1, "t", "a", none, 5⟩
    (by decide) (by decide) (by decide)
